import Mathlib

/-!
# Snippet catalog — shallow embedding

A shallow embedding of the snippet-catalog subsystem of the repository:
`src/utils/slugify.js`, `src/services/snippet.service.js`, the public
controller (`src/controllers/public.controller.js`) and the API controller.

Database tables become lists of structures (list order = rowid /
insertion order, as produced by SQLite's `AUTOINCREMENT`); SQL queries
become Lean functions over those lists.  Nullable columns become
`Option`.  `BOOLEAN` columns are SQLite integers, embedded as `Nat`
(`0` / `1`), matching the literal comparisons `is_private = 0` and
`is_approved = 1` in `PUBLIC_FILTER`.  `created_at` (a
`DATETIME DEFAULT CURRENT_TIMESTAMP`) is embedded as a `Nat` timestamp
ordered as the column orders.

`ORDER BY s.created_at DESC` constrains only the `created_at` key, so a
query with an `ORDER BY` is embedded as a *relation* between the
database and the returned row list: any permutation of the selected
rows that is sorted by `created_at` descending is an admissible result.
`LIMIT ? OFFSET ?` follows SQLite semantics: a negative offset behaves
as zero, a negative limit means no limit.
-/

namespace SnippetDashboard

/-! ## JavaScript string helpers (`src/utils/slugify.js`)

`slugify` is `text.toString().toLowerCase().trim()
.replace(/\s+/g, "-").replace(/[^\w\-]+/g, "").replace(/\-\-+/g, "-")`.
Strings are embedded as `List Char`-processing on `String`.
`\s` / `trim` whitespace is embedded as the ASCII whitespace class and
`toLowerCase` as ASCII lowering (the regex classes `\w`, `\-` are
ASCII-only, so non-ASCII characters are stripped either way). -/

/-- ASCII whitespace, the embedding of the JS `\s` class / `trim`. -/
def jsWhitespace (c : Char) : Bool :=
  c == ' ' || c == '\t' || c == '\n' || c == '\r' || c == '\x0b' || c == '\x0c'

/-- The JS `\w` class: ASCII letters, digits and underscore. -/
def wordChar (c : Char) : Bool :=
  ('a' ≤ c && c ≤ 'z') || ('A' ≤ c && c ≤ 'Z') || ('0' ≤ c && c ≤ '9') || c == '_'

/-- `String.prototype.trim` on a character list. -/
def jsTrimList (l : List Char) : List Char :=
  ((l.dropWhile jsWhitespace).reverse.dropWhile jsWhitespace).reverse

/-- `.replace(/\s+/g, "-")`: each maximal whitespace run becomes one
hyphen.  The boolean state records whether the previous character was
part of a whitespace run already replaced. -/
def wsToHyphenAux : Bool → List Char → List Char
  | _, [] => []
  | inRun, c :: rest =>
    if jsWhitespace c then
      if inRun then wsToHyphenAux true rest
      else '-' :: wsToHyphenAux true rest
    else c :: wsToHyphenAux false rest

/-- `.replace(/\s+/g, "-")` on a character list. -/
def wsToHyphen (l : List Char) : List Char :=
  wsToHyphenAux false l

/-- `.replace(/\-\-+/g, "-")`: each run of hyphens collapses to one
(runs of length one are unchanged by the regex, and unchanged here). -/
def collapseHyphensAux : Bool → List Char → List Char
  | _, [] => []
  | inRun, c :: rest =>
    if c == '-' then
      if inRun then collapseHyphensAux true rest
      else '-' :: collapseHyphensAux true rest
    else c :: collapseHyphensAux false rest

/-- `.replace(/\-\-+/g, "-")` on a character list. -/
def collapseHyphens (l : List Char) : List Char :=
  collapseHyphensAux false l

/-- `slugify` from `src/utils/slugify.js`: lower-case, trim, whitespace
runs to hyphens, strip non-word/non-hyphen characters, collapse
repeated hyphens. -/
def slugify (text : String) : String :=
  (collapseHyphens (((wsToHyphen (jsTrimList (text.toList.map Char.toLower)))).filter
    (fun c => wordChar c || c == '-'))).asString

/-! ## SQL `LIKE` (SQLite, default ASCII case-insensitive) -/

/-- SQLite `LIKE` pattern matching on character lists: `%` matches any
(possibly empty) run — i.e. the rest of the pattern must match some
suffix — `_` matches any one character, and plain characters match
ASCII case-insensitively. -/
def likeMatch : List Char → List Char → Bool
  | [], cs => cs.isEmpty
  | '%' :: ps, cs => cs.tails.any fun suffix => likeMatch ps suffix
  | '_' :: _, [] => false
  | '_' :: ps, _ :: cs => likeMatch ps cs
  | _ :: _, [] => false
  | p :: ps, c :: cs => (p.toLower == c.toLower) && likeMatch ps cs

/-- `column LIKE '%' || term || '%'` on a string column. -/
def sqlLikeContains (term target : String) : Bool :=
  likeMatch ('%' :: (term.toList ++ ['%'])) target.toList

/-! ## Data model (tables from `src/config/database.js`) -/

/-- A row of the `users` table. -/
structure User where
  id : Nat
  username : String
  is_admin : Nat
  is_approved : Nat
  deriving Repr, DecidableEq

/-- A row of the `snippets` table.  Nullable columns are `Option`. -/
structure Snippet where
  id : Nat
  title : String
  slug : String
  short_id : String
  description : Option String
  code : String
  tags : Option String
  reference_url : Option String
  category_id : Option Nat
  language_id : Option Nat
  user_id : Nat
  is_private : Nat
  created_at : Nat
  deriving Repr, DecidableEq

/-- The database state: the two tables the snippet service reads and
writes, each list in rowid (insertion) order. -/
structure DB where
  users : List User
  snippets : List Snippet
  deriving Repr, DecidableEq

/-! ## Joins and the visibility filter (`src/services/snippet.service.js`) -/

/-- `JOIN users u ON s.user_id = u.id`: pair each snippet with its
owning user row (user `id` is the primary key, so at most one row
matches); snippets whose `user_id` matches no user produce no joined
row, as in an inner join (and under `PUBLIC_FILTER` the left joins of
`BASE_SNIPPET_QUERY` behave the same, since `NULL = 1` is not true). -/
def joinRows (db : DB) : List (Snippet × User) :=
  db.snippets.filterMap fun s =>
    (db.users.find? fun u => u.id == s.user_id).map fun u => (s, u)

/-- `PUBLIC_FILTER`: `s.is_private = 0 AND u.is_approved = 1`. -/
def publicFilter (r : Snippet × User) : Bool :=
  r.1.is_private == 0 && r.2.is_approved == 1

/-- The joined rows that pass `PUBLIC_FILTER` — the row source shared
by every public-facing count and page query. -/
def publicRows (db : DB) : List (Snippet × User) :=
  (joinRows db).filter publicFilter

/-! ## The six facet predicates (the per-facet `WHERE` conjunct) -/

/-- Facet "all": `WHERE PUBLIC_FILTER 1`. -/
def allPred (_ : Snippet × User) : Bool := true

/-- Facet "category": `s.category_id = ?` (false on `NULL`). -/
def categoryPred (categoryId : Nat) (r : Snippet × User) : Bool :=
  r.1.category_id == some categoryId

/-- Facet "language": `s.language_id = ?` (false on `NULL`). -/
def languagePred (languageId : Nat) (r : Snippet × User) : Bool :=
  r.1.language_id == some languageId

/-- Facet "author": `u.username = ?`. -/
def authorPred (username : String) (r : Snippet × User) : Bool :=
  r.2.username == username

/-- Facet "tag": `s.tags LIKE '%' || tag || '%'` (false on `NULL`). -/
def tagPred (tag : String) (r : Snippet × User) : Bool :=
  match r.1.tags with
  | some t => sqlLikeContains tag t
  | none => false

/-- Facet "search":
`(s.title LIKE ? OR s.description LIKE ? OR s.code LIKE ?)`. -/
def searchPred (q : String) (r : Snippet × User) : Bool :=
  sqlLikeContains q r.1.title ||
    (match r.1.description with
     | some d => sqlLikeContains q d
     | none => false) ||
    sqlLikeContains q r.1.code

/-! ## Count queries (`SELECT COUNT(s.id) ... WHERE PUBLIC_FILTER ...`) -/

/-- `countAll` (service line 239). -/
def countAll (db : DB) : Nat :=
  ((publicRows db).filter allPred).length

/-- `countByCategory` (service line 257). -/
def countByCategory (db : DB) (categoryId : Nat) : Nat :=
  ((publicRows db).filter (categoryPred categoryId)).length

/-- `countByLanguage` (service line 275). -/
def countByLanguage (db : DB) (languageId : Nat) : Nat :=
  ((publicRows db).filter (languagePred languageId)).length

/-- `countByAuthor` (service line 293). -/
def countByAuthor (db : DB) (username : String) : Nat :=
  ((publicRows db).filter (authorPred username)).length

/-- `countByTag` (service line 311). -/
def countByTag (db : DB) (tag : String) : Nat :=
  ((publicRows db).filter (tagPred tag)).length

/-- `countSearchResults` (service line 331). -/
def countSearchResults (db : DB) (q : String) : Nat :=
  ((publicRows db).filter (searchPred q)).length

/-! ## Pagination (`LIMIT ? OFFSET ?`, offset `(page - 1) * limit`) -/

/-- SQLite `LIMIT limit OFFSET offset` applied to a result list: a
negative offset behaves as zero; a negative limit means no bound. -/
def sqlLimitOffset (limit offset : Int) (rows : List α) : List α :=
  let dropped := rows.drop (max offset 0).toNat
  if limit < 0 then dropped else dropped.take limit.toNat

/-- `ORDER BY s.created_at DESC`: the list is sorted by the single key
`created_at`, descending; no secondary key is imposed. -/
def sortedByCreatedDesc (l : List (Snippet × User)) : Prop :=
  l.Chain' fun a b => b.1.created_at ≤ a.1.created_at

instance sortedByCreatedDescDec :
    (l : List (Snippet × User)) → Decidable (sortedByCreatedDesc l)
  | [] => isTrue List.chain'_nil
  | [r] => isTrue (List.chain'_singleton r)
  | a :: b :: t =>
    have : Decidable (sortedByCreatedDesc (b :: t)) := sortedByCreatedDescDec (b :: t)
    decidable_of_iff (b.1.created_at ≤ a.1.created_at ∧ sortedByCreatedDesc (b :: t))
      (by
        unfold sortedByCreatedDesc
        exact (@List.chain'_cons _
          (fun a b : Snippet × User => b.1.created_at ≤ a.1.created_at) a b t).symm)

/-- The result relation of one facet's page query: some ordering `full`
of the filtered rows — any permutation admitted by
`ORDER BY s.created_at DESC` — was sliced with
`LIMIT limit OFFSET (page - 1) * limit` (the formula shared by every
`findPaginated*` function in the service). -/
def pageQuery (p : Snippet × User → Bool) (db : DB) (page limit : Int)
    (res : List (Snippet × User)) : Prop :=
  ∃ full : List (Snippet × User),
    full.Perm ((publicRows db).filter p) ∧ sortedByCreatedDesc full ∧
      res = sqlLimitOffset limit ((page - 1) * limit) full

/-- `findPaginated` (service line 248). -/
def findPaginated (db : DB) (page limit : Int) (res : List (Snippet × User)) : Prop :=
  pageQuery allPred db page limit res

/-- `findPaginatedByCategory` (service line 266). -/
def findPaginatedByCategory (db : DB) (categoryId : Nat) (page limit : Int)
    (res : List (Snippet × User)) : Prop :=
  pageQuery (categoryPred categoryId) db page limit res

/-- `findPaginatedByLanguage` (service line 284). -/
def findPaginatedByLanguage (db : DB) (languageId : Nat) (page limit : Int)
    (res : List (Snippet × User)) : Prop :=
  pageQuery (languagePred languageId) db page limit res

/-- `findPaginatedByAuthor` (service line 302). -/
def findPaginatedByAuthor (db : DB) (username : String) (page limit : Int)
    (res : List (Snippet × User)) : Prop :=
  pageQuery (authorPred username) db page limit res

/-- `findPaginatedByTag` (service line 321). -/
def findPaginatedByTag (db : DB) (tag : String) (page limit : Int)
    (res : List (Snippet × User)) : Prop :=
  pageQuery (tagPred tag) db page limit res

/-- `search` (service line 341). -/
def search (db : DB) (q : String) (page limit : Int)
    (res : List (Snippet × User)) : Prop :=
  pageQuery (searchPred q) db page limit res

/-! ## Single-row lookups -/

/-- `findById` (service line 30): `SELECT * FROM snippets WHERE id = ?`
via `query.get`, i.e. the first matching row in table order. -/
def findById (db : DB) (id : Nat) : Option Snippet :=
  db.snippets.find? fun s => s.id == id

/-- `findByIdentifierWithDetail` (service line 359):
`WHERE s.slug = ? OR s.short_id = ?` via `query.get` — the first
matching row; note the `WHERE` clause has no `PUBLIC_FILTER`. -/
def findByIdentifierWithDetail (db : DB) (identifier : String) : Option Snippet :=
  db.snippets.find? fun s => s.slug == identifier || s.short_id == identifier

/-! ## Tag index (`findAllTags`, service line 367) -/

/-- `String.prototype.split(",")` on a character list: the comma-
separated pieces, one more piece than there are commas (the empty
string splits to one empty piece, as in JS). -/
def splitOnComma : List Char → List (List Char)
  | [] => [[]]
  | c :: rest =>
    if c == ',' then [] :: splitOnComma rest
    else
      match splitOnComma rest with
      | [] => [[c]]
      | piece :: pieces => (c :: piece) :: pieces

/-- The trimmed, non-empty comma-separated tokens of one `tags` string:
`row.tags.split(",")`, each token `trim`med, empty tokens skipped. -/
def tagTokens (t : String) : List String :=
  ((splitOnComma t.toList).map fun tok => (jsTrimList tok).asString).filter
    fun tok => tok ≠ ""

/-- The token stream `findAllTags` accumulates: the rows of
`SELECT tags ... WHERE PUBLIC_FILTER s.tags IS NOT NULL AND s.tags != ''`,
each split, trimmed and filtered. -/
def findAllTagsTokens (db : DB) : List String :=
  (((publicRows db).filterMap fun r => r.1.tags).filter fun t => t ≠ "").flatMap
    tagTokens

/-- Lexicographic comparison of character lists — the order JS string
comparison (`Array.prototype.sort`'s default for strings) induces. -/
def lexLe : List Char → List Char → Bool
  | [], _ => true
  | _ :: _, [] => false
  | a :: as, b :: bs => a < b || (a == b && lexLe as bs)

/-- Lexicographic `≤` on strings. -/
def strLe (s t : String) : Bool :=
  lexLe s.toList t.toList

/-- Insert a string into a lexicographically sorted list. -/
def insertSorted (s : String) : List String → List String
  | [] => [s]
  | t :: ts => if strLe s t then s :: t :: ts else t :: insertSorted s ts

/-- Sort strings lexicographically (`Array.prototype.sort`, which
compares strings by their code units). -/
def sortStrings (l : List String) : List String :=
  l.foldr insertSorted []

/-- The distinct strings of a list, first occurrences kept — the key
set of the `tagCounts` object. -/
def dedupKeys : List String → List String
  | [] => []
  | s :: rest => s :: (dedupKeys rest).filter fun t => t ≠ s

/-- `findAllTags`: accumulate per-token counts, then emit `(name, count)`
pairs for the distinct tag names sorted lexicographically
(`Object.keys(tagCounts).sort()`). -/
def findAllTags (db : DB) : List (String × Nat) :=
  let tokens := findAllTagsTokens db
  (sortStrings (dedupKeys tokens)).map fun name => (name, tokens.count name)

/-! ## Mutations (`create`, `update`, `remove`) -/

/-- The caller-supplied snippet fields.  `is_private` is `Option`
because both `create` and `update` destructure it with a default
(`is_private = 0`); callers that omit it pass `none`. -/
structure SnippetData where
  title : String
  description : Option String
  code : String
  tags : Option String
  category_id : Option Nat
  reference_url : Option String
  language_id : Option Nat
  is_private : Option Nat
  deriving Repr, DecidableEq

/-- The acting session user as the service sees it (`user.id`,
`user.is_admin`). -/
structure Actor where
  id : Nat
  is_admin : Bool
  deriving Repr, DecidableEq

/-- A fresh rowid for an insert: `AUTOINCREMENT` always exceeds every
existing id. -/
def nextId (db : DB) : Nat :=
  db.snippets.foldr (fun s m => max s.id m) 0 + 1

/-- `create` (service line 38).  `now` is `Date.now()` and `shortId`
the generated `uid.rnd()`.  A candidate slug is derived from the title;
if any existing snippet already has it, `-<now>` is appended.  Returns
the inserted row and the new database. -/
def create (db : DB) (now : Nat) (shortId : String) (user_id : Nat)
    (data : SnippetData) : Snippet × DB :=
  let candidate := slugify data.title
  let slug :=
    if db.snippets.any fun s => s.slug == candidate then
      candidate ++ "-" ++ toString now
    else candidate
  let row : Snippet :=
    { id := nextId db
      title := data.title
      slug := slug
      short_id := shortId
      description := data.description
      code := data.code
      tags := data.tags
      reference_url := data.reference_url
      category_id := data.category_id
      language_id := data.language_id
      user_id := user_id
      is_private := data.is_private.getD 0
      created_at := now }
  (row, { db with snippets := db.snippets ++ [row] })

/-- The row an `UPDATE ... SET ... WHERE ...` produces from a matched
row: every listed column is overwritten (`is_private` falling back to
the destructuring default `0`), `short_id`, `user_id` and `created_at`
are untouched. -/
def applyUpdate (data : SnippetData) (finalSlug : String) (s : Snippet) : Snippet :=
  { s with
    title := data.title
    description := data.description
    code := data.code
    tags := data.tags
    category_id := data.category_id
    reference_url := data.reference_url
    language_id := data.language_id
    slug := finalSlug
    is_private := data.is_private.getD 0 }

/-- `update` (service line 92).  Fetches the current row (throwing
`"Snippet not found for update."` when absent), keeps the stored slug
unless the title changed (regenerating with the same
collision-then-timestamp arbitration, excluding the row itself), then
runs `UPDATE ... WHERE id = ?` — with `AND user_id = ?` appended for a
non-admin actor.  Returns the new database and the number of changed
rows (`this.changes`). -/
def update (db : DB) (now : Nat) (id : Nat) (user : Actor)
    (data : SnippetData) : Except String (DB × Nat) :=
  match findById db id with
  | none => .error "Snippet not found for update."
  | some currentSnippet =>
    let finalSlug :=
      if data.title ≠ currentSnippet.title then
        let cand := slugify data.title
        if db.snippets.any fun s => s.slug == cand && s.id != id then
          cand ++ "-" ++ toString now
        else cand
      else currentSnippet.slug
    .ok
      ({ db with
          snippets := db.snippets.map fun s =>
            if s.id == id && (user.is_admin || s.user_id == user.id) then
              applyUpdate data finalSlug s
            else s },
        (db.snippets.filter fun s =>
          s.id == id && (user.is_admin || s.user_id == user.id)).length)

/-- `remove` (service line 157): `DELETE FROM snippets WHERE id = ?`,
with `AND user_id = ?` appended for a non-admin actor.  Returns the new
database and `this.changes`. -/
def remove (db : DB) (id : Nat) (user : Actor) : DB × Nat :=
  ({ db with
      snippets := db.snippets.filter fun s =>
        !(s.id == id && (user.is_admin || s.user_id == user.id)) },
    (db.snippets.filter fun s =>
      s.id == id && (user.is_admin || s.user_id == user.id)).length)

/-! ## The API create path (`createSnippet`, api controller) -/

/-- The JSON body fields `createSnippet` reads from `req.body`; there
is no `is_private` among them. -/
structure ApiSnippetBody where
  title : String
  description : Option String
  code : String
  tags : Option String
  category_id : Option Nat
  language_id : Option Nat
  reference_url : Option String
  deriving Repr, DecidableEq

/-- `createSnippet` from the API controller: validates
`!title || !code` (JS string falsiness = empty string), then calls
`snippetService.create` with a data object that carries no
`is_private` field (`none`). -/
def apiCreateSnippet (db : DB) (now : Nat) (shortId : String) (userId : Nat)
    (body : ApiSnippetBody) : Except String (Snippet × DB) :=
  if body.title = "" ∨ body.code = "" then
    .error "Title and code are required."
  else
    .ok (create db now shortId userId
      { title := body.title
        description := body.description
        code := body.code
        tags := body.tags
        category_id := body.category_id
        reference_url := body.reference_url
        language_id := body.language_id
        is_private := none })

/-! ## Visibility of a snippet within a database -/

/-- A snippet is visible in `db` when it is public and its owning user
(looked up by `user_id`) is approved — the predicate `PUBLIC_FILTER`
expresses row-wise. -/
def visibleIn (db : DB) (s : Snippet) : Bool :=
  match db.users.find? fun u => u.id == s.user_id with
  | some u => publicFilter (s, u)
  | none => false

/-- `db` with every non-visible snippet deleted.  The public read
queries cannot distinguish `db` from `eraseInvisible db`. -/
def eraseInvisible (db : DB) : DB :=
  { db with snippets := db.snippets.filter fun s => visibleIn db s }

/-! ## The six facets as one type

The spec's six facets (all / category / language / author / tag /
search) each consist of one count function and one page function from
the service.  `Facet` lets a theorem quantify over all six pairs. -/

/-- One facet together with its facet value. -/
inductive Facet where
  | all : Facet
  | category (categoryId : Nat) : Facet
  | language (languageId : Nat) : Facet
  | author (username : String) : Facet
  | tag (tag : String) : Facet
  | search (q : String) : Facet
  deriving Repr, DecidableEq

/-- The per-facet `WHERE` conjunct. -/
def Facet.pred : Facet → (Snippet × User → Bool)
  | .all => allPred
  | .category i => categoryPred i
  | .language i => languagePred i
  | .author u => authorPred u
  | .tag t => tagPred t
  | .search q => searchPred q

/-- The rows a facet's queries range over: the `PUBLIC_FILTER`ed join
restricted by the facet conjunct. -/
def facetRows (db : DB) (f : Facet) : List (Snippet × User) :=
  (publicRows db).filter f.pred

/-- Dispatch to the six count functions of the service. -/
def facetCount (db : DB) : Facet → Nat
  | .all => countAll db
  | .category i => countByCategory db i
  | .language i => countByLanguage db i
  | .author u => countByAuthor db u
  | .tag t => countByTag db t
  | .search q => countSearchResults db q

/-- Dispatch to the six page functions of the service. -/
def facetPage (db : DB) (f : Facet) (page limit : Int)
    (res : List (Snippet × User)) : Prop :=
  match f with
  | .all => findPaginated db page limit res
  | .category i => findPaginatedByCategory db i page limit res
  | .language i => findPaginatedByLanguage db i page limit res
  | .author u => findPaginatedByAuthor db u page limit res
  | .tag t => findPaginatedByTag db t page limit res
  | .search q => search db q page limit res

/-! ## The public snippet page (`renderSnippetPage`,
`src/controllers/public.controller.js` lines 67–77) -/

/-- `renderSnippetPage`: resolve the identifier with
`findByIdentifierWithDetail`; a missing row is a 404, any found row is
rendered. -/
def renderSnippetPage (db : DB) (identifier : String) : Except String Snippet :=
  match findByIdentifierWithDetail db identifier with
  | none => .error "Snippet not found"
  | some snippet => .ok snippet

/-! ## Definitions written from the claims' words (for comparison)

These two definitions do **not** embed source code; each follows the
wording of a claim so that the theorems can compare the claimed
behaviour with the embedded one. -/

/-- The slug recipe exactly as claim C6 words it: lower-case, collapse
whitespace runs to hyphens, strip characters that are neither word
characters nor hyphens, collapse repeated hyphens — with no trimming
step. -/
def slugifyClaimed (text : String) : String :=
  (collapseHyphens ((wsToHyphen (text.toList.map Char.toLower)).filter
    (fun c => wordChar c || c == '-'))).asString

/-- The tag index exactly as claim C9 words it: take the tags string of
**every** visible snippet (a `NULL` tags column contributes the empty
string), split on commas, trim, discard empty tokens, count every
remaining occurrence, and emit `(name, count)` pairs sorted by name. -/
def tagIndexClaimed (db : DB) : List (String × Nat) :=
  let tokens := (publicRows db).flatMap fun r => tagTokens (r.1.tags.getD "")
  (sortStrings (dedupKeys tokens)).map fun name => (name, tokens.count name)

/-! ## Concrete test data -/

/-- An approved, non-admin user. -/
def alice : User := { id := 1, username := "alice", is_admin := 0, is_approved := 1 }

/-- A user whose account is not approved. -/
def bob : User := { id := 2, username := "bob", is_admin := 0, is_approved := 0 }

/-- A visible snippet of `alice` (public, approved author). -/
def snipFoo : Snippet :=
  { id := 1, title := "Foo Tool", slug := "foo-tool", short_id := "AAAAAAAA"
    description := some "a foo helper", code := "echo foo"
    tags := some "cli, script, cli", reference_url := none
    category_id := some 1, language_id := some 2, user_id := 1
    is_private := 0, created_at := 100 }

/-- A **private** snippet of `alice`. -/
def snipSecret : Snippet :=
  { id := 2, title := "Secret", slug := "secret", short_id := "BBBBBBBB"
    description := none, code := "token=123", tags := some "cli"
    reference_url := none, category_id := some 1, language_id := some 2
    user_id := 1, is_private := 1, created_at := 101 }

/-- A public snippet of the unapproved user `bob`. -/
def snipBob : Snippet :=
  { id := 3, title := "Bobs", slug := "bobs", short_id := "DDDDDDDD"
    description := none, code := "bob", tags := some "cli"
    reference_url := none, category_id := some 1, language_id := some 2
    user_id := 2, is_private := 0, created_at := 102 }

/-- A second visible snippet of `alice`, newer than `snipFoo`. -/
def snipBar : Snippet :=
  { id := 4, title := "Bar Tool", slug := "bar-tool", short_id := "CCCCCCCC"
    description := some "bar", code := "echo bar", tags := some "cli"
    reference_url := none, category_id := some 1, language_id := some 2
    user_id := 1, is_private := 0, created_at := 103 }

/-- The running example database: two visible snippets, one private
snippet, one snippet of an unapproved author. -/
def exDb : DB :=
  { users := [alice, bob], snippets := [snipFoo, snipSecret, snipBob, snipBar] }

/-- Two visible snippets sharing one creation timestamp. -/
def tieA : Snippet :=
  { id := 10, title := "Tie A", slug := "tie-a", short_id := "EEEEEEEE"
    description := none, code := "a", tags := none, reference_url := none
    category_id := none, language_id := none, user_id := 1
    is_private := 0, created_at := 500 }

/-- The second snippet of the tied pair. -/
def tieB : Snippet :=
  { id := 11, title := "Tie B", slug := "tie-b", short_id := "FFFFFFFF"
    description := none, code := "b", tags := none, reference_url := none
    category_id := none, language_id := none, user_id := 1
    is_private := 0, created_at := 500 }

/-- A database in which two visible snippets tie on `created_at`. -/
def tieDb : DB := { users := [alice], snippets := [tieA, tieB] }

/-- A database with no snippets yet. -/
def emptyDb : DB := { users := [alice], snippets := [] }

/-- Caller data whose title has surrounding whitespace. -/
def dataHi : SnippetData :=
  { title := " hi ", description := none, code := "x", tags := none
    category_id := none, reference_url := none, language_id := none
    is_private := none }

/-- Caller data titled "Hello World". -/
def dataHello : SnippetData :=
  { title := "Hello World", description := none, code := "greet"
    tags := none, category_id := none, reference_url := none
    language_id := none, is_private := none }

/-- A pre-existing snippet already holding the slug `hello-world`. -/
def preHello : Snippet :=
  { id := 7, title := "Hello World", slug := "hello-world"
    short_id := "GGGGGGGG", description := none, code := "old"
    tags := none, reference_url := none, category_id := none
    language_id := none, user_id := 1, is_private := 0, created_at := 50 }

/-- A database in which the slug `hello-world` is already taken. -/
def helloDb : DB := { users := [alice], snippets := [preHello] }

/-- Update data carrying `snipFoo`'s stored title unchanged. -/
def dataFooSame : SnippetData :=
  { title := "Foo Tool", description := some "edited", code := "echo foo2"
    tags := some "cli", category_id := some 1, reference_url := none
    language_id := some 2, is_private := some 0 }

/-- `alice` as the acting session user (owner of `snipFoo`). -/
def aliceActor : Actor := { id := 1, is_admin := false }

/-- A non-admin actor who owns none of the example snippets. -/
def mallory : Actor := { id := 99, is_admin := false }

/-- The database after `alice` updates `snipFoo` without changing its
title. -/
def updFooDb : DB :=
  { exDb with
      snippets := [applyUpdate dataFooSame "foo-tool" snipFoo, snipSecret,
        snipBob, snipBar] }

/-- An API request body — note it carries no privacy field. -/
def apiBody : ApiSnippetBody :=
  { title := "Api Snip", description := none, code := "c", tags := none
    category_id := none, language_id := none, reference_url := none }

/-- The service-level data object the API controller builds from
`apiBody` (no `is_private`). -/
def apiData : SnippetData :=
  { title := apiBody.title, description := apiBody.description
    code := apiBody.code, tags := apiBody.tags
    category_id := apiBody.category_id, reference_url := apiBody.reference_url
    language_id := apiBody.language_id, is_private := none }

/-- The snippet row the API create inserts into `exDb`. -/
def apiRow : Snippet := (create exDb 1000 "S9" 1 apiData).1

/-- The database after the API create. -/
def apiDb : DB := (create exDb 1000 "S9" 1 apiData).2

/-! ## Helper lemmas: joins and visibility -/

/-- A joined row's user component is exactly the row found for the
snippet's `user_id`. -/
theorem find?_eq_of_mem_joinRows {db : DB} {r : Snippet × User}
    (h : r ∈ joinRows db) :
    (db.users.find? fun u => u.id == r.1.user_id) = some r.2 := by
  unfold joinRows at h
  rcases List.mem_filterMap.mp h with ⟨s, _, hopt⟩
  cases hfind : db.users.find? fun u => u.id == s.user_id with
  | none => rw [hfind] at hopt; simp at hopt
  | some u =>
    rw [hfind] at hopt
    simp only [Option.map_some'] at hopt
    cases hopt
    simpa using hfind

/-- Every row of `publicRows` is a visible snippet of the database. -/
theorem visibleIn_of_mem_publicRows {db : DB} {r : Snippet × User}
    (h : r ∈ publicRows db) : visibleIn db r.1 = true := by
  unfold publicRows at h
  have hmem : r ∈ joinRows db := (List.mem_filter.mp h).1
  have hpf : publicFilter r = true := (List.mem_filter.mp h).2
  unfold visibleIn
  rw [find?_eq_of_mem_joinRows hmem]
  exact hpf

/-- Rows of `publicRows` are public snippets (`is_private = 0`). -/
theorem is_private_of_mem_publicRows {db : DB} {r : Snippet × User}
    (h : r ∈ publicRows db) : r.1.is_private = 0 := by
  unfold publicRows at h
  have hpf : publicFilter r = true := (List.mem_filter.mp h).2
  unfold publicFilter at hpf
  simp only [Bool.and_eq_true, beq_iff_eq] at hpf
  exact hpf.1

/-- Deleting the invisible snippets does not change the joined,
`PUBLIC_FILTER`ed row list (generalized over the snippet table). -/
theorem publicRows_filter_vis (users : List User) (l : List Snippet) :
    ((l.filter fun s =>
        match users.find? fun u => u.id == s.user_id with
        | some u => publicFilter (s, u)
        | none => false).filterMap fun s =>
          (users.find? fun u => u.id == s.user_id).map fun u => (s, u)).filter
        publicFilter
      = (l.filterMap fun s =>
          (users.find? fun u => u.id == s.user_id).map fun u => (s, u)).filter
          publicFilter := by
  induction l with
  | nil => rfl
  | cons s t ih =>
    cases hfind : users.find? fun u => u.id == s.user_id with
    | none =>
      simp only [List.filter_cons, List.filterMap_cons, hfind, Option.map_none']
      exact ih
    | some u =>
      cases hpf : publicFilter (s, u) with
      | true => simp [List.filter_cons, List.filterMap_cons, hfind, hpf, ih]
      | false => simp [List.filter_cons, List.filterMap_cons, hfind, hpf, ih]

/-- The public read queries cannot distinguish `db` from
`eraseInvisible db`: the filtered join is identical. -/
theorem publicRows_eraseInvisible (db : DB) :
    publicRows (eraseInvisible db) = publicRows db :=
  publicRows_filter_vis db.users db.snippets

/-- `facetCount` only reads `publicRows`, so erasing invisible
snippets leaves every facet count unchanged. -/
theorem facetCount_eraseInvisible (db : DB) (f : Facet) :
    facetCount (eraseInvisible db) f = facetCount db f := by
  cases f <;>
    simp only [facetCount, countAll, countByCategory, countByLanguage,
      countByAuthor, countByTag, countSearchResults, publicRows_eraseInvisible]

/-- The facet counts are the lengths of the facet row lists. -/
theorem facetCount_eq_length (db : DB) (f : Facet) :
    facetCount db f = (facetRows db f).length := by
  cases f <;> rfl

/-- The facet pages are the `pageQuery` relation at the facet's
predicate. -/
theorem facetPage_iff (db : DB) (f : Facet) (page limit : Int)
    (res : List (Snippet × User)) :
    facetPage db f page limit res ↔ pageQuery f.pred db page limit res := by
  cases f <;> rfl

/-! ## Helper lemmas: `LIMIT`/`OFFSET` slices -/

/-- A slice is a sublist of the sliced list. -/
theorem sqlLimitOffset_sublist (limit off : Int) (l : List α) :
    (sqlLimitOffset limit off l).Sublist l := by
  unfold sqlLimitOffset
  by_cases h : limit < 0
  · simpa [h] using List.drop_sublist _ _
  · simpa [h] using (List.take_sublist _ _).trans (List.drop_sublist _ _)

/-- With a non-negative `LIMIT`, a slice has at most `limit` rows. -/
theorem length_sqlLimitOffset_le (limit off : Int) (l : List α)
    (h : 0 ≤ limit) : (sqlLimitOffset limit off l).length ≤ limit.toNat := by
  unfold sqlLimitOffset
  rw [if_neg (by omega)]
  exact (List.length_take _ _).le.trans (min_le_left _ _)

/-- A non-positive `OFFSET` behaves exactly like `OFFSET 0`. -/
theorem sqlLimitOffset_nonpos_offset (limit off : Int) (l : List α)
    (h : off ≤ 0) : sqlLimitOffset limit off l = sqlLimitOffset limit 0 l := by
  unfold sqlLimitOffset
  rw [max_eq_right h, max_self]

/-- Casting a natural page size and offset into the slice. -/
theorem sqlLimitOffset_natCast (szn off : Nat) (l : List α) :
    sqlLimitOffset (szn : Int) (off : Int) l = (l.drop off).take szn := by
  unfold sqlLimitOffset
  rw [if_neg (by omega), max_eq_left (by omega)]
  simp

/-- The `(page − 1) × limit` offset, written over naturals. -/
theorem pageOffset_cast (nn szn : Nat) (h : 1 ≤ nn) :
    ((nn : Int) - 1) * (szn : Int) = (((nn - 1) * szn : Nat) : Int) := by
  push_cast [Nat.cast_sub h]
  ring

/-- Successive `LIMIT szn OFFSET i·szn` slices concatenate back to the
whole result list once the page count covers its length. -/
theorem chunks_flatten (szn : Nat) :
    ∀ (K : Nat) (l : List α), l.length ≤ K * szn →
      ((List.range K).map fun i => (l.drop (i * szn)).take szn).flatten = l := by
  intro K
  induction K with
  | zero =>
    intro l hl
    simp only [Nat.zero_mul, Nat.le_zero] at hl
    simp [List.length_eq_zero.mp hl]
  | succ K ih =>
    intro l hl
    rw [List.range_succ_eq_map]
    simp only [List.map_cons, List.map_map, List.flatten_cons, Nat.zero_mul,
      List.drop_zero]
    have hmap : ∀ i ∈ List.range K,
        ((fun i => (l.drop (i * szn)).take szn) ∘ Nat.succ) i
          = ((l.drop szn).drop (i * szn)).take szn := by
      intro i _
      simp only [Function.comp_apply]
      rw [List.drop_drop]
      have : i * szn + szn = Nat.succ i * szn := by rw [Nat.succ_mul]
      rw [Nat.add_comm szn (i * szn), this]
    rw [List.map_congr_left hmap,
      ih (l.drop szn) (by rw [List.length_drop, Nat.succ_mul] at *; omega)]
    exact List.take_append_drop szn l

/-- A page slice is non-empty exactly when its offset is inside the
result list (page size positive). -/
theorem slice_ne_nil_iff (szn off : Nat) (hszn : 0 < szn) (l : List α) :
    (l.drop off).take szn ≠ [] ↔ off < l.length := by
  rw [Ne, List.take_eq_nil_iff, List.drop_eq_nil_iff]
  constructor
  · intro h
    by_contra hc
    exact h (Or.inr (by omega))
  · rintro h (h2 | h2) <;> omega

/-- A requested page is within `ceil(count / size)` exactly when its
offset is below `count` (page number and size positive). -/
theorem page_in_range_iff (nn szn cnt : Nat) (h1 : 1 ≤ nn) (h2 : 0 < szn) :
    (nn - 1) * szn < cnt ↔ nn ≤ (cnt + szn - 1) / szn ∧ 0 < cnt := by
  have hmul : (nn - 1) * szn + szn = nn * szn := by
    cases nn with
    | zero => omega
    | succ m => simp [Nat.succ_sub_one, Nat.succ_mul]
  rw [Nat.le_div_iff_mul_le h2]
  omega

/-- Slicing preserves the descending `created_at` ordering. -/
theorem sortedByCreatedDesc_sqlLimitOffset {l : List (Snippet × User)}
    (h : sortedByCreatedDesc l) (limit off : Int) :
    sortedByCreatedDesc (sqlLimitOffset limit off l) := by
  unfold sortedByCreatedDesc at h ⊢
  letI : IsTrans (Snippet × User) (fun a b => b.1.created_at ≤ a.1.created_at) :=
    ⟨fun _ _ _ hab hbc => le_trans hbc hab⟩
  rw [List.chain'_iff_pairwise] at h ⊢
  exact h.sublist (sqlLimitOffset_sublist _ _ _)

/-- Every row of a facet page result is one of the filtered public
rows. -/
theorem mem_publicRows_of_pageQuery {p : Snippet × User → Bool} {db : DB}
    {page limit : Int} {res : List (Snippet × User)}
    (h : pageQuery p db page limit res) : ∀ r ∈ res, r ∈ publicRows db := by
  rcases h with ⟨full, hperm, _, hres⟩
  intro r hr
  subst hres
  have hfull : r ∈ full := (sqlLimitOffset_sublist _ _ _).subset hr
  have hfilt : r ∈ (publicRows db).filter p := hperm.mem_iff.mp hfull
  exact (List.mem_filter.mp hfilt).1

/-! ## Helper lemmas: tag tokens and sorting -/

/-- The empty tags string yields no tokens. -/
theorem tagTokens_empty : tagTokens "" = [] := rfl

/-- The tokens the service accumulates (rows with non-null, non-empty
`tags`) are the tokens of every public row's `tags`-or-empty string:
null and empty `tags` contribute no tokens either way. -/
theorem findAllTagsTokens_eq (db : DB) :
    findAllTagsTokens db
      = (publicRows db).flatMap fun r => tagTokens (r.1.tags.getD "") := by
  unfold findAllTagsTokens
  induction publicRows db with
  | nil => rfl
  | cons r t ih =>
    cases htags : r.1.tags with
    | none => simpa [List.filterMap_cons, htags, tagTokens_empty] using ih
    | some tg =>
      by_cases htg : tg = ""
      · simpa [List.filterMap_cons, htags, htg, tagTokens_empty] using ih
      · simpa [List.filterMap_cons, List.filter_cons, htags, htg] using ih

/-- Membership in an insertion is membership in the inserted element or
the list. -/
theorem mem_insertSorted {x s : String} {l : List String} :
    x ∈ insertSorted s l ↔ x = s ∨ x ∈ l := by
  induction l with
  | nil => simp [insertSorted]
  | cons t ts ih =>
    unfold insertSorted
    cases hst : strLe s t
    · simp only [Bool.false_eq_true, if_false, List.mem_cons, ih]
      tauto
    · simp

/-- Sorting preserves membership. -/
theorem mem_sortStrings {x : String} {l : List String} :
    x ∈ sortStrings l ↔ x ∈ l := by
  induction l with
  | nil => simp [sortStrings]
  | cons s rest ih =>
    show x ∈ insertSorted s (sortStrings rest) ↔ _
    rw [mem_insertSorted, ih]
    simp

/-- Deduplicated keys come from the original list. -/
theorem mem_of_mem_dedupKeys {x : String} {l : List String}
    (h : x ∈ dedupKeys l) : x ∈ l := by
  induction l with
  | nil => simp [dedupKeys] at h
  | cons s rest ih =>
    unfold dedupKeys at h
    rcases List.mem_cons.mp h with h | h
    · simp [h]
    · exact List.mem_cons_of_mem _ (ih (List.mem_filter.mp h).1)

/-- Every accumulated token is a non-empty string. -/
theorem ne_empty_of_mem_findAllTagsTokens {db : DB} {x : String}
    (h : x ∈ findAllTagsTokens db) : x ≠ "" := by
  unfold findAllTagsTokens at h
  rcases List.mem_flatMap.mp h with ⟨t, _, hx⟩
  unfold tagTokens at hx
  simpa using (List.mem_filter.mp hx).2

/-! ## Claim C1 -/

/-- C1: for each of the six facets (all, category, language, author,
tag, search) and every facet value, neither the facet's count operation
nor any page it returns includes a snippet whose `is_private` is true
or whose owning user's `is_approved` is false: every row of every page
is visible, and every count is unchanged when the non-visible snippets
are deleted from the database. -/
theorem facet_pages_and_counts_exclude_hidden :
    ∀ (f : Facet) (db : DB) (page limit : Int) (res : List (Snippet × User)),
      facetPage db f page limit res →
      facetCount (eraseInvisible db) f = facetCount db f ∧
        ∀ r ∈ res, r.1.is_private = 0 ∧ visibleIn db r.1 = true := by
  intro f db page limit res hres
  have hq : pageQuery f.pred db page limit res :=
    (facetPage_iff db f page limit res).mp hres
  refine ⟨facetCount_eraseInvisible db f, fun r hr => ?_⟩
  have hmem : r ∈ publicRows db := mem_publicRows_of_pageQuery hq r hr
  exact ⟨is_private_of_mem_publicRows hmem, visibleIn_of_mem_publicRows hmem⟩

/-- Witness for C1: the category facet of the example database, whose
snippet table contains a private snippet and an unapproved author's
snippet. -/
theorem facet_pages_and_counts_exclude_hidden_witness :
    facetCount (eraseInvisible exDb) (Facet.category 1)
        = facetCount exDb (Facet.category 1) ∧
      ∀ r ∈ [(snipBar, alice), (snipFoo, alice)],
        r.1.is_private = 0 ∧ visibleIn exDb r.1 = true :=
  facet_pages_and_counts_exclude_hidden (Facet.category 1) exDb 1 5
    [(snipBar, alice), (snipFoo, alice)]
    ⟨[(snipBar, alice), (snipFoo, alice)], by decide, by decide, by decide⟩

/-! ## Claim C2 -/

/-- C2 counterexample: the public detail read has no visibility filter.
`renderSnippetPage` resolves the identifier `"secret"` to the private
snippet `snipSecret` and serves it (and likewise serves the unapproved
author's snippet `"bobs"`), even though neither is visible. -/
theorem findByIdentifier_returns_hidden_counterexample :
    renderSnippetPage exDb "secret" = .ok snipSecret ∧
      snipSecret.is_private = 1 ∧ visibleIn exDb snipSecret = false ∧
      renderSnippetPage exDb "bobs" = .ok snipBob ∧
      visibleIn exDb snipBob = false :=
  ⟨rfl, rfl, rfl, rfl, rfl⟩

/-- C2 amended: `findByIdentifierWithDetail` resolves a slug or short
ID with **no** visibility condition: it reports not-found exactly when
no snippet at all carries the identifier, and any snippet it returns
matches the identifier — whether or not it is private or its author
approved. -/
theorem findByIdentifier_matches_iff :
    ∀ (db : DB) (identifier : String),
      (findByIdentifierWithDetail db identifier = none ↔
        ∀ s ∈ db.snippets, s.slug ≠ identifier ∧ s.short_id ≠ identifier) ∧
      ∀ s, findByIdentifierWithDetail db identifier = some s →
        s ∈ db.snippets ∧ (s.slug = identifier ∨ s.short_id = identifier) := by
  intro db identifier
  constructor
  · rw [findByIdentifierWithDetail, List.find?_eq_none]
    exact forall_congr' fun s => forall_congr' fun _ => by simp [not_or]
  · intro s hfind
    exact ⟨List.mem_of_find?_eq_some hfind, by simpa using List.find?_some hfind⟩

/-- Witness for C2 (amended): the private snippet is found by its
slug. -/
theorem findByIdentifier_matches_iff_witness :
    snipSecret ∈ exDb.snippets ∧
      (snipSecret.slug = "secret" ∨ snipSecret.short_id = "secret") :=
  (findByIdentifier_matches_iff exDb "secret").2 snipSecret (by decide)

/-! ## Claim C3 -/

/-- C3 counterexample: page numbers below `1` also return non-empty
pages (the negative offset behaves as offset `0`), so "page `n` is
non-empty exactly when `1 ≤ n ≤ ceil(count/size) and count > 0`" fails
at `n = 0`: page `0` of the category facet is non-empty although
`1 ≤ 0` does not hold. -/
theorem count_page_consistency_counterexample :
    findPaginatedByCategory exDb 1 0 1 [(snipBar, alice)] ∧
      ([(snipBar, alice)] : List (Snippet × User)) ≠ [] ∧ ¬(1 ≤ (0 : Int)) :=
  ⟨⟨[(snipBar, alice), (snipFoo, alice)], by decide, by decide, by decide⟩,
    by decide, by decide⟩

/-- C3 amended: for every facet and value, count and page evaluate the
identical filter over the same state: the count equals the length of
the ordered result the pages slice, the successive pages concatenate
back to exactly that result (so the count is the total number of
snippets returned across all pages), and for page numbers `n ≥ 1` and
positive size, page `n` is non-empty exactly when
`n ≤ ceil(count/size)` and `count > 0` (page numbers below `1` behave
as page `1`). -/
theorem count_page_consistency :
    ∀ (f : Facet) (db : DB) (nn szn K : Nat) (full : List (Snippet × User)),
      1 ≤ nn → 0 < szn →
      full.Perm (facetRows db f) → sortedByCreatedDesc full →
      facetCount db f ≤ K * szn →
      facetCount db f = full.length ∧
        ((List.range K).map fun i =>
            sqlLimitOffset ((szn : Nat) : Int)
              ((((i + 1 : Nat) : Int) - 1) * ((szn : Nat) : Int)) full).flatten
          = full ∧
        (sqlLimitOffset ((szn : Nat) : Int)
            ((((nn : Nat) : Int) - 1) * ((szn : Nat) : Int)) full ≠ [] ↔
          (nn ≤ (facetCount db f + szn - 1) / szn ∧ 0 < facetCount db f)) ∧
        facetPage db f ((nn : Nat) : Int) ((szn : Nat) : Int)
          (sqlLimitOffset ((szn : Nat) : Int)
            ((((nn : Nat) : Int) - 1) * ((szn : Nat) : Int)) full) := by
  intro f db nn szn K full h1 h2 hperm hsort hK
  have hcnt : facetCount db f = full.length := by
    rw [facetCount_eq_length db f, hperm.length_eq]
  refine ⟨hcnt, ?_, ?_, ?_⟩
  · have hmap : ∀ i ∈ List.range K,
        sqlLimitOffset ((szn : Nat) : Int)
            ((((i + 1 : Nat) : Int) - 1) * ((szn : Nat) : Int)) full
          = (full.drop (i * szn)).take szn := by
      intro i _
      rw [pageOffset_cast (i + 1) szn (by omega), sqlLimitOffset_natCast]
      simp
    rw [List.map_congr_left hmap]
    exact chunks_flatten szn K full (by omega)
  · rw [pageOffset_cast nn szn h1, sqlLimitOffset_natCast,
      slice_ne_nil_iff szn _ h2 full, ← hcnt]
    exact page_in_range_iff nn szn _ h1 h2
  · rw [facetPage_iff]
    exact ⟨full, hperm, hsort, rfl⟩

/-- Witness for C3 (amended) on the category facet of the example
database: two matching rows, page size `1`, two pages. -/
theorem count_page_consistency_witness :
    facetCount exDb (Facet.category 1)
        = [(snipBar, alice), (snipFoo, alice)].length ∧
      ((List.range 2).map fun i =>
          sqlLimitOffset ((1 : Nat) : Int)
            ((((i + 1 : Nat) : Int) - 1) * ((1 : Nat) : Int))
            [(snipBar, alice), (snipFoo, alice)]).flatten
        = [(snipBar, alice), (snipFoo, alice)] ∧
      (sqlLimitOffset ((1 : Nat) : Int)
          ((((1 : Nat) : Int) - 1) * ((1 : Nat) : Int))
          [(snipBar, alice), (snipFoo, alice)] ≠ [] ↔
        (1 ≤ (facetCount exDb (Facet.category 1) + 1 - 1) / 1 ∧
          0 < facetCount exDb (Facet.category 1))) ∧
      facetPage exDb (Facet.category 1) ((1 : Nat) : Int) ((1 : Nat) : Int)
        (sqlLimitOffset ((1 : Nat) : Int)
          ((((1 : Nat) : Int) - 1) * ((1 : Nat) : Int))
          [(snipBar, alice), (snipFoo, alice)]) :=
  count_page_consistency (Facet.category 1) exDb 1 1 2
    [(snipBar, alice), (snipFoo, alice)] (by decide) (by decide) (by decide)
    (by decide) (by decide)

/-! ## Claim C4 -/

/-- C4: for every facet, a page holds at most `limit` rows (for a
non-negative limit), a request for a page number at most `1` returns a
result of page `1` (the negative offset behaves as offset `0`), and a
page number beyond `ceil(count/size)` yields the empty list — an empty
page, not an error. -/
theorem pagination_bounds :
    ∀ (f : Facet) (db : DB) (page limit : Int) (res : List (Snippet × User)),
      facetPage db f page limit res →
      (0 ≤ limit → (res.length : Int) ≤ limit) ∧
        (page ≤ 1 → 0 ≤ limit → facetPage db f 1 limit res) ∧
        ∀ nn szn : Nat, page = (nn : Int) → limit = (szn : Int) → 0 < szn →
          (facetCount db f + szn - 1) / szn < nn → res = [] := by
  intro f db page limit res hres
  rw [facetPage_iff] at hres
  rcases hres with ⟨full, hperm, hsort, hslice⟩
  subst hslice
  refine ⟨?_, ?_, ?_⟩
  · intro hlim
    have h := length_sqlLimitOffset_le limit ((page - 1) * limit) full hlim
    have h2 : (((sqlLimitOffset limit ((page - 1) * limit) full).length : Int))
        ≤ (limit.toNat : Int) := by exact_mod_cast h
    rwa [Int.toNat_of_nonneg hlim] at h2
  · intro hpage hlim
    rw [facetPage_iff]
    refine ⟨full, hperm, hsort, ?_⟩
    have hprod : (page - 1) * limit ≤ 0 := by
      have := mul_nonneg (show (0 : Int) ≤ 1 - page by omega) hlim
      nlinarith
    rw [sqlLimitOffset_nonpos_offset _ _ _ hprod,
      sqlLimitOffset_nonpos_offset _ ((1 - 1) * limit) _ (by simp)]
  · intro nn szn hpn hsz hszpos hceil
    subst hpn
    subst hsz
    have h1 : 1 ≤ nn := lt_of_le_of_lt (Nat.zero_le _) hceil
    rw [pageOffset_cast nn szn h1, sqlLimitOffset_natCast]
    have hcnt : facetCount db f = full.length := by
      rw [facetCount_eq_length db f, hperm.length_eq]
      rfl
    have hc : ¬ ((nn - 1) * szn < facetCount db f) := by
      rw [page_in_range_iff nn szn _ h1 hszpos]
      rintro ⟨hle, _⟩
      omega
    rw [List.drop_eq_nil_iff.mpr (by omega)]
    simp

/-- Witness for C4 on the category facet: page `0` behaves as page `1`
and respects the size bound; page `3` of `2` rows at size `1` is
empty. -/
theorem pagination_bounds_witness :
    (([(snipBar, alice)] : List (Snippet × User)).length : Int) ≤ 1 ∧
      facetPage exDb (Facet.category 1) 1 1 [(snipBar, alice)] ∧
      ([] : List (Snippet × User)) = [] := by
  have H0 : facetPage exDb (Facet.category 1) 0 1 [(snipBar, alice)] :=
    ⟨[(snipBar, alice), (snipFoo, alice)], by decide, by decide, by decide⟩
  have H3 : facetPage exDb (Facet.category 1) 3 1 [] :=
    ⟨[(snipBar, alice), (snipFoo, alice)], by decide, by decide, by decide⟩
  exact ⟨(pagination_bounds (Facet.category 1) exDb 0 1 [(snipBar, alice)] H0).1
      (by decide),
    (pagination_bounds (Facet.category 1) exDb 0 1 [(snipBar, alice)] H0).2.1
      (by decide) (by decide),
    (pagination_bounds (Facet.category 1) exDb 3 1 [] H3).2.2 3 1 rfl rfl
      (by decide) (by decide)⟩

/-! ## Claim C5 -/

/-- C5 counterexample: the queries order only by `created_at DESC`
with no secondary key, so when two visible snippets share a creation
timestamp both interleavings are admissible results of the very same
page call — the ordering is not deterministic and ties are not broken
by insertion order. -/
theorem page_order_determinism_counterexample :
    findPaginated tieDb 1 10 [(tieA, alice), (tieB, alice)] ∧
      findPaginated tieDb 1 10 [(tieB, alice), (tieA, alice)] ∧
      ([(tieA, alice), (tieB, alice)] : List (Snippet × User))
        ≠ [(tieB, alice), (tieA, alice)] :=
  ⟨⟨[(tieA, alice), (tieB, alice)], by decide, by decide, by decide⟩,
    ⟨[(tieB, alice), (tieA, alice)], by decide, by decide, by decide⟩,
    by decide⟩

/-- C5 amended: every page returned by every facet is ordered
descending by creation timestamp.  (The queries impose no secondary
sort key, so no particular order among snippets with equal creation
timestamps is guaranteed — see the counterexample.) -/
theorem pages_sorted_by_created_desc :
    ∀ (f : Facet) (db : DB) (page limit : Int) (res : List (Snippet × User)),
      facetPage db f page limit res → sortedByCreatedDesc res := by
  intro f db page limit res hres
  rw [facetPage_iff] at hres
  rcases hres with ⟨full, _, hsort, hslice⟩
  subst hslice
  exact sortedByCreatedDesc_sqlLimitOffset hsort _ _

/-- Witness for C5 (amended): a concrete page of the "all" facet is
sorted by descending creation timestamp. -/
theorem pages_sorted_by_created_desc_witness :
    sortedByCreatedDesc [(snipBar, alice), (snipFoo, alice)] :=
  pages_sorted_by_created_desc Facet.all exDb 1 5
    [(snipBar, alice), (snipFoo, alice)]
    ⟨[(snipBar, alice), (snipFoo, alice)], by decide, by decide, by decide⟩

/-! ## Claim C6 -/

/-- Reading the slug of the inserted row. -/
theorem create_slug (db : DB) (now : Nat) (shortId : String) (user_id : Nat)
    (data : SnippetData) :
    (create db now shortId user_id data).1.slug
      = if db.snippets.any fun s => s.slug == slugify data.title then
          slugify data.title ++ "-" ++ toString now
        else slugify data.title := rfl

/-- The snippet table after an insert. -/
theorem create_snippets (db : DB) (now : Nat) (shortId : String)
    (user_id : Nat) (data : SnippetData) :
    (create db now shortId user_id data).2.snippets
      = db.snippets ++ [(create db now shortId user_id data).1] := rfl

/-- C6 counterexample: (a) the slug assigned for the title `" hi "` is
`"hi"` — the code trims the title first — while the claim's recipe
(lower-case, whitespace runs to hyphens, strip, collapse) yields
`"-hi-"`; (b) when the candidate slug is already taken before the
first create, two sequential creates with identical titles and equal
`Date.now()` readings are both disambiguated with the same timestamp
and get the **same** slug, not distinct ones. -/
theorem slug_recipe_counterexample :
    (create emptyDb 500 "S1" 1 dataHi).1.slug = "hi" ∧
      slugifyClaimed " hi " = "-hi-" ∧ ("hi" : String) ≠ "-hi-" ∧
      (create helloDb 700 "S1" 1 dataHello).1.slug
        = (create (create helloDb 700 "S1" 1 dataHello).2 700 "S2" 1
            dataHello).1.slug :=
  ⟨by decide, by decide, by decide, by decide⟩

/-- C6 amended: `create` assigns the slug `slugify` derives from the
title (trim, lower-case, whitespace runs to hyphens, strip
non-word/non-hyphen characters, collapse repeated hyphens); when no
existing snippet holds that candidate, the first create gets the
candidate itself and a second create with the identical title gets the
candidate with `-` and the current millisecond timestamp appended —
two distinct slugs, the second carrying the disambiguating suffix. -/
theorem slug_allocation :
    ∀ (db : DB) (d : SnippetData) (now₁ now₂ : Nat) (sid₁ sid₂ : String)
      (uid₁ uid₂ : Nat),
      (db.snippets.any fun s => s.slug == slugify d.title) = false →
      (create db now₁ sid₁ uid₁ d).1.slug = slugify d.title ∧
        (create (create db now₁ sid₁ uid₁ d).2 now₂ sid₂ uid₂ d).1.slug
          = slugify d.title ++ "-" ++ toString now₂ ∧
        (create db now₁ sid₁ uid₁ d).1.slug
          ≠ (create (create db now₁ sid₁ uid₁ d).2 now₂ sid₂ uid₂ d).1.slug := by
  intro db d now₁ now₂ sid₁ sid₂ uid₁ uid₂ hfree
  have h1 : (create db now₁ sid₁ uid₁ d).1.slug = slugify d.title := by
    rw [create_slug, if_neg (by simp [hfree])]
  have h2 : (create (create db now₁ sid₁ uid₁ d).2 now₂ sid₂ uid₂ d).1.slug
      = slugify d.title ++ "-" ++ toString now₂ := by
    rw [create_slug, if_pos]
    rw [create_snippets, List.any_append]
    simp [hfree, h1]
  refine ⟨h1, h2, ?_⟩
  rw [h1, h2]
  intro heq
  have hlen := congrArg String.length heq
  simp only [String.length_append] at hlen
  have hone : ("-" : String).length = 1 := rfl
  omega

/-- Witness for C6 (amended): two sequential creates titled
"Hello World" on a database without that slug. -/
theorem slug_allocation_witness :
    (create emptyDb 600 "S1" 1 dataHello).1.slug = slugify dataHello.title ∧
      (create (create emptyDb 600 "S1" 1 dataHello).2 601 "S2" 1
          dataHello).1.slug
        = slugify dataHello.title ++ "-" ++ toString 601 ∧
      (create emptyDb 600 "S1" 1 dataHello).1.slug
        ≠ (create (create emptyDb 600 "S1" 1 dataHello).2 601 "S2" 1
            dataHello).1.slug :=
  slug_allocation emptyDb dataHello 600 601 "S1" "S2" 1 1 (by decide)

/-! ## Claim C7 -/

/-- C7: updating an existing snippet with a supplied title equal to
the stored title leaves every stored slug unchanged (no regeneration,
no disambiguation) — with snippet ids unique, as the primary key
guarantees. -/
theorem update_same_title_keeps_slug :
    ∀ (db : DB) (now id : Nat) (user : Actor) (data : SnippetData)
      (res : DB × Nat) (cur : Snippet),
      (db.snippets.map Snippet.id).Nodup →
      findById db id = some cur →
      data.title = cur.title →
      update db now id user data = .ok res →
      res.1.snippets.map Snippet.slug = db.snippets.map Snippet.slug := by
  intro db now id user data res cur hnodup hfind htitle hupd
  unfold update at hupd
  rw [hfind] at hupd
  simp only [htitle, ne_eq, not_true_eq_false, if_false, Except.ok.injEq] at hupd
  subst hupd
  rw [List.map_map]
  apply List.map_congr_left
  intro s hs
  by_cases hm : (s.id == id && (user.is_admin || s.user_id == user.id)) = true
  · have hsid : s.id = id := by
      have := (Bool.and_eq_true _ _).mp hm
      simpa using this.1
    have hcurid : cur.id = id := by simpa using List.find?_some hfind
    have hseq : s = cur :=
      List.inj_on_of_nodup_map hnodup hs (List.mem_of_find?_eq_some hfind)
        (by rw [hsid, hcurid])
    simp only [Function.comp_apply, hm, if_true]
    rw [hseq]
    rfl
  · simp only [Function.comp_apply, hm, if_false]
    rfl

/-- Witness for C7: `alice` updates her snippet `snipFoo` keeping the
title "Foo Tool"; every stored slug is unchanged. -/
theorem update_same_title_keeps_slug_witness :
    updFooDb.snippets.map Snippet.slug = exDb.snippets.map Snippet.slug :=
  update_same_title_keeps_slug exDb 999 1 aliceActor dataFooSame (updFooDb, 1)
    snipFoo (by decide) (by decide) (by decide) rfl

/-! ## Claim C8 -/

/-- C8: a non-admin whose id differs from an existing snippet's
`user_id` affects zero rows with `update` as well as `remove`: the
mutation's own `WHERE user_id = ?` conjunct matches nothing, so the
database is returned unchanged with a change count of `0`. -/
theorem cross_user_mutation_is_noop :
    ∀ (db : DB) (now id : Nat) (user : Actor) (data : SnippetData)
      (cur : Snippet),
      (db.snippets.map Snippet.id).Nodup →
      user.is_admin = false →
      findById db id = some cur →
      cur.user_id ≠ user.id →
      update db now id user data = .ok (db, 0) ∧
        remove db id user = (db, 0) := by
  intro db now id user data cur hnodup hadmin hfind howner
  have hcurmem := List.mem_of_find?_eq_some hfind
  have hcurid : cur.id = id := by simpa using List.find?_some hfind
  have hmatched : ∀ s ∈ db.snippets,
      (s.id == id && (user.is_admin || s.user_id == user.id)) = false := by
    intro s hs
    rw [hadmin]
    by_cases hid : s.id = id
    · have hseq : s = cur :=
        List.inj_on_of_nodup_map hnodup hs hcurmem (by rw [hid, hcurid])
      subst hseq
      simp [howner]
    · simp [hid]
  have hmap : (db.snippets.map fun s =>
      if s.id == id && (user.is_admin || s.user_id == user.id) then
        applyUpdate data
          (if data.title ≠ cur.title then
            if db.snippets.any fun s => s.slug == slugify data.title && s.id != id
            then slugify data.title ++ "-" ++ toString now
            else slugify data.title
          else cur.slug) s
      else s) = db.snippets := by
    have : ∀ s ∈ db.snippets,
        (if s.id == id && (user.is_admin || s.user_id == user.id) then
          applyUpdate data
            (if data.title ≠ cur.title then
              if db.snippets.any fun s =>
                s.slug == slugify data.title && s.id != id
              then slugify data.title ++ "-" ++ toString now
              else slugify data.title
            else cur.slug) s
        else s) = s := by
      intro s hs
      rw [if_neg (by simp [hmatched s hs])]
    rw [List.map_congr_left this, List.map_id']
  have hfilt : (db.snippets.filter fun s =>
      s.id == id && (user.is_admin || s.user_id == user.id)) = [] := by
    rw [List.filter_eq_nil_iff]
    intro s hs
    simp [hmatched s hs]
  have hfilt2 : (db.snippets.filter fun s =>
      !(s.id == id && (user.is_admin || s.user_id == user.id))) = db.snippets := by
    rw [List.filter_eq_self]
    intro s hs
    simp [hmatched s hs]
  constructor
  · simp only [update, hfind]
    rw [hmap, hfilt]
    rfl
  · unfold remove
    rw [hfilt, hfilt2]
    rfl

/-- Witness for C8: the non-admin `mallory` can neither update nor
delete `alice`'s snippet `snipFoo`. -/
theorem cross_user_mutation_is_noop_witness :
    update exDb 999 1 mallory dataFooSame = .ok (exDb, 0) ∧
      remove exDb 1 mallory = (exDb, 0) :=
  cross_user_mutation_is_noop exDb 999 1 mallory dataFooSame snipFoo
    (by decide) (by decide) (by decide) (by decide)

/-! ## Claim C9 -/

/-- C9: `findAllTags` returns exactly the claimed tag index — the
comma-split, trimmed, non-empty tokens of every visible snippet's tags
string, duplicates counted separately, emitted as `(name, count)` pairs
sorted by name (`tagIndexClaimed`); it is unchanged when every
non-visible snippet is deleted, contains no empty name, and on the
scenario database (`"cli, script, cli"` and `"cli"` visible,
plus a private and an unapproved-author `"cli"`) yields
`cli: 3, script: 1`. -/
theorem tag_index_correct :
    (∀ db : DB,
        findAllTags db = tagIndexClaimed db ∧
          findAllTags (eraseInvisible db) = findAllTags db ∧
          ∀ p ∈ findAllTags db, p.1 ≠ "") ∧
      findAllTags exDb = [("cli", 3), ("script", 1)] := by
  constructor
  · intro db
    refine ⟨?_, ?_, ?_⟩
    · unfold findAllTags tagIndexClaimed
      rw [findAllTagsTokens_eq]
    · have h : findAllTagsTokens (eraseInvisible db) = findAllTagsTokens db := by
        unfold findAllTagsTokens
        rw [publicRows_eraseInvisible]
      unfold findAllTags
      rw [h]
    · intro p hp
      simp only [findAllTags] at hp
      rcases List.mem_map.mp hp with ⟨name, hname, hpe⟩
      have hmem : name ∈ findAllTagsTokens db :=
        mem_of_mem_dedupKeys (mem_sortStrings.mp hname)
      rw [← hpe]
      exact ne_empty_of_mem_findAllTagsTokens hmem
  · decide

/-- Witness for C9: the pair `("cli", 3)` of the example index has a
non-empty name. -/
theorem tag_index_correct_witness : (("cli", 3) : String × Nat).1 ≠ "" :=
  (tag_index_correct.1 exDb).2.2 ("cli", 3) (by decide)

/-! ## Claim C10 -/

/-- C10: a snippet created through the authenticated API is always
stored with `is_private = 0`: the API controller passes no privacy
flag, and the service defaults an absent `is_private` to `0`, so the
inserted row is public. -/
theorem api_create_forces_public :
    ∀ (db : DB) (now : Nat) (shortId : String) (userId : Nat)
      (body : ApiSnippetBody) (s : Snippet) (db' : DB),
      apiCreateSnippet db now shortId userId body = .ok (s, db') →
      s.is_private = 0 ∧ s ∈ db'.snippets := by
  intro db now shortId userId body s db' h
  unfold apiCreateSnippet at h
  split at h
  · cases h
  · rw [Except.ok.injEq, Prod.mk.injEq] at h
    obtain ⟨hs, hdb⟩ := h
    constructor
    · rw [← hs]
      rfl
    · rw [← hdb, create_snippets, ← hs]
      exact List.mem_append_right _ (List.mem_singleton.mpr rfl)

/-- Witness for C10: creating `apiBody` through the API path inserts a
public row. -/
theorem api_create_forces_public_witness :
    apiRow.is_private = 0 ∧ apiRow ∈ apiDb.snippets :=
  api_create_forces_public exDb 1000 "S9" 1 apiBody apiRow apiDb rfl

end SnippetDashboard
